import Mathlib

/-!
Shallow embedding of the `LogStore` storage engine from
`src/packages/client/src/exports-commonjs.js` (the Cassandra-backed log store:
`store`, `requestLast`, `requestFrom`, `requestRange`, `fetchRange`, the scalar
summary queries, `parseRow`/`createResultStream` and `close`).

Conventions of the embedding:
* Timestamps and sequence numbers are `Int` (JS numbers used as integers).
* `undefined` optional arguments are `Option.none`.
* Prepared-statement parameter lists are modelled by the `Param` inductive.
* The Cassandra backend is modelled by explicit inputs: the rows of the
  `stream_data` table, the rows of the `bucket` table, and (for `requestLast`)
  the per-bucket record counts returned by the `COUNT(*)` queries.
-/

namespace LogStore

/-- Constant `MIN_SEQUENCE_NUMBER_VALUE = 0` from the source. -/
def MIN_SEQUENCE_NUMBER_VALUE : Int := 0

/-- Constant `MAX_SEQUENCE_NUMBER_VALUE = 2147483647` from the source. -/
def MAX_SEQUENCE_NUMBER_VALUE : Int := 2147483647

/-- Constant `MAX_TIMESTAMP_VALUE = 8640000000000000` from the source. -/
def MAX_TIMESTAMP_VALUE : Int := 8640000000000000

/-- Constant `MAX_RESEND_LAST = 10000` from the source. -/
def MAX_RESEND_LAST : Nat := 10000

/-- A value bound to a `?` placeholder of a prepared Cassandra statement. -/
inductive Param where
  | str : String → Param
  | num : Int → Param
  | idList : List String → Param
deriving DecidableEq, Repr

/-- A physical query as built by `fetchRange`: a `WHERE` clause (with `?`
placeholders) and the bound parameters, in order. -/
structure QuerySpec where
  whereClause : String
  params : List Param
deriving DecidableEq, Repr

/-- JavaScript truthiness of a `string | undefined` value, as tested by
`if (publisherId)` / `if (msgChainId)` in `fetchRange`: `undefined` and the
empty string are falsy. -/
def truthy : Option String → Bool
  | none => false
  | some s => !(s == "")

/-- The `queries.forEach((q) => ...)` step of `fetchRange`: append
`publisher_id` and `msg_chain_id` filters to a query when the corresponding
argument is truthy. -/
def addFilters (publisherId msgChainId : Option String) (q : QuerySpec) : QuerySpec :=
  let q1 :=
    if truthy publisherId then
      { whereClause := q.whereClause ++ " AND publisher_id = ?",
        params := q.params ++ [Param.str (publisherId.getD "")] }
    else q
  if truthy msgChainId then
    { whereClause := q1.whereClause ++ " AND msg_chain_id = ?",
      params := q1.params ++ [Param.str (msgChainId.getD "")] }
  else q1

/-- The query-building step of `fetchRange` for a non-empty bucket set: one
`ts >= ? AND ts <= ?` query when the sequence numbers span the whole domain,
otherwise the three-way split, each then passed through `addFilters`. -/
def fetchRangeQueries (streamId : String) (partition : Int)
    (fromTimestamp fromSequenceNo toTimestamp toSequenceNo : Int)
    (publisherId msgChainId : Option String) (bucketIds : List String) : List QuerySpec :=
  let queries : List QuerySpec :=
    if fromSequenceNo = MIN_SEQUENCE_NUMBER_VALUE ∧ toSequenceNo = MAX_SEQUENCE_NUMBER_VALUE then
      [{ whereClause := "WHERE stream_id = ? AND partition = ? AND bucket_id IN ? AND ts >= ? AND ts <= ?",
         params := [Param.str streamId, Param.num partition, Param.idList bucketIds,
                    Param.num fromTimestamp, Param.num toTimestamp] }]
    else
      [{ whereClause := "WHERE stream_id = ? AND partition = ? AND bucket_id IN ? AND ts = ? AND sequence_no >= ?",
         params := [Param.str streamId, Param.num partition, Param.idList bucketIds,
                    Param.num fromTimestamp, Param.num fromSequenceNo] },
       { whereClause := "WHERE stream_id = ? AND partition = ? AND bucket_id IN ? AND ts > ? AND ts < ?",
         params := [Param.str streamId, Param.num partition, Param.idList bucketIds,
                    Param.num fromTimestamp, Param.num toTimestamp] },
       { whereClause := "WHERE stream_id = ? AND partition = ? AND bucket_id IN ? AND ts = ? AND sequence_no <= ?",
         params := [Param.str streamId, Param.num partition, Param.idList bucketIds,
                    Param.num toTimestamp, Param.num toSequenceNo] }]
  queries.map (addFilters publisherId msgChainId)

/-- `fetchRange`, at the level of the physical queries it issues: when
`getBucketsByTimestamp` returns no buckets the result stream is ended with no
query issued (`[]`); otherwise the built queries are issued. -/
def fetchRangePlan (streamId : String) (partition : Int)
    (fromTimestamp fromSequenceNo toTimestamp toSequenceNo : Int)
    (publisherId msgChainId : Option String) (bucketIds : List String) : List QuerySpec :=
  if bucketIds = [] then []
  else
    fetchRangeQueries streamId partition fromTimestamp fromSequenceNo toTimestamp
      toSequenceNo publisherId msgChainId bucketIds

/-- The message of the `Error` thrown by `requestRange` on a bad
publisher/chain combination. -/
def invalidCombinationError : String := "Invalid combination of requestFrom arguments"

/-- `requestRange`: validates that `publisherId` and `msgChainId` are both
defined or both undefined, throwing synchronously otherwise (no backend call:
the error branch carries no queries), then delegates to `fetchRange`. -/
def requestRange (streamId : String) (partition : Int)
    (fromTimestamp fromSequenceNo toTimestamp toSequenceNo : Int)
    (publisherId msgChainId : Option String) (bucketIds : List String) :
    Except String (List QuerySpec) :=
  let isValidRequest :=
    (publisherId ≠ none ∧ msgChainId ≠ none) ∨ (publisherId = none ∧ msgChainId = none)
  if ¬ isValidRequest then Except.error invalidCombinationError
  else
    Except.ok (fetchRangePlan streamId partition fromTimestamp fromSequenceNo toTimestamp
      toSequenceNo publisherId msgChainId bucketIds)

/-- `requestFrom`: delegates to `fetchRange` with `toTimestamp` pinned to
`MAX_TIMESTAMP_VALUE`, `toSequenceNo` pinned to `MAX_SEQUENCE_NUMBER_VALUE`
and no `msgChainId`, performing no argument validation of its own. -/
def requestFromPlan (streamId : String) (partition : Int)
    (fromTimestamp fromSequenceNo : Int) (publisherId : Option String)
    (bucketIds : List String) : List QuerySpec :=
  fetchRangePlan streamId partition fromTimestamp fromSequenceNo
    MAX_TIMESTAMP_VALUE MAX_SEQUENCE_NUMBER_VALUE publisherId none bucketIds

/-- The `WHERE`-clause suffix that `addFilters` appends for a given pair of
optional publisher/chain arguments. -/
def filterSuffix (publisherId msgChainId : Option String) : String :=
  (if truthy publisherId then " AND publisher_id = ?" else "") ++
  (if truthy msgChainId then " AND msg_chain_id = ?" else "")

/-- The parameters that `addFilters` appends for a given pair of optional
publisher/chain arguments. -/
def filterParams (publisherId msgChainId : Option String) : List Param :=
  (if truthy publisherId then [Param.str (publisherId.getD "")] else []) ++
  (if truthy msgChainId then [Param.str (msgChainId.getD "")] else [])

theorem addFilters_eq (publisherId msgChainId : Option String) (q : QuerySpec) :
    addFilters publisherId msgChainId q =
      ⟨q.whereClause ++ filterSuffix publisherId msgChainId,
       q.params ++ filterParams publisherId msgChainId⟩ := by
  simp only [addFilters, filterSuffix, filterParams]
  by_cases h1 : truthy publisherId <;> by_cases h2 : truthy msgChainId <;>
    simp [h1, h2, String.append_assoc, String.append_empty]

theorem addFilters_none_none (q : QuerySpec) : addFilters none none q = q := by
  simp [addFilters, truthy]

theorem addFilters_some_none (pid : String) (hpid : pid ≠ "") (q : QuerySpec) :
    addFilters (some pid) none q =
      ⟨q.whereClause ++ " AND publisher_id = ?", q.params ++ [Param.str pid]⟩ := by
  simp [addFilters, truthy, hpid]

/-- C2: `requestRange` fails synchronously with the invalid-argument error,
issuing no query, exactly when one of `publisherId`/`msgChainId` is supplied
and the other is not; when both are supplied or both absent it proceeds to
build and issue the range queries. -/
theorem requestRange_validates_combination
    (streamId : String) (partition fromTimestamp fromSequenceNo toTimestamp toSequenceNo : Int)
    (publisherId msgChainId : Option String) (bucketIds : List String) :
    (publisherId.isSome ≠ msgChainId.isSome →
      requestRange streamId partition fromTimestamp fromSequenceNo toTimestamp toSequenceNo
        publisherId msgChainId bucketIds = Except.error invalidCombinationError) ∧
    (publisherId.isSome = msgChainId.isSome →
      requestRange streamId partition fromTimestamp fromSequenceNo toTimestamp toSequenceNo
        publisherId msgChainId bucketIds =
      Except.ok (fetchRangePlan streamId partition fromTimestamp fromSequenceNo toTimestamp
        toSequenceNo publisherId msgChainId bucketIds)) := by
  constructor <;> intro h <;> cases publisherId <;> cases msgChainId <;>
    simp_all [requestRange]

/-- Witness for C2: at concrete inputs, supplying only a publisher fails and
supplying neither succeeds. -/
theorem requestRange_validates_combination_witness :
    requestRange "s" 0 1 0 2 2147483647 (some "p") none ["b"] =
      Except.error invalidCombinationError ∧
    requestRange "s" 0 1 0 2 2147483647 none none ["b"] =
      Except.ok (fetchRangePlan "s" 0 1 0 2 2147483647 none none ["b"]) :=
  ⟨(requestRange_validates_combination "s" 0 1 0 2 2147483647 (some "p") none ["b"]).1
      (by decide),
   (requestRange_validates_combination "s" 0 1 0 2 2147483647 none none ["b"]).2 rfl⟩

/-- C7: `requestFrom` produces the same physical queries as the range fetch
with `toTimestamp` pinned to `8640000000000000` and `toSequenceNo` pinned to
`2147483647` (and no `msgChainId`). -/
theorem requestFrom_is_range_to_max
    (streamId : String) (partition fromTimestamp fromSequenceNo : Int)
    (publisherId : Option String) (bucketIds : List String) :
    requestFromPlan streamId partition fromTimestamp fromSequenceNo publisherId bucketIds =
      fetchRangePlan streamId partition fromTimestamp fromSequenceNo
        8640000000000000 2147483647 publisherId none bucketIds := rfl

/-- C3 counterexample: with `publisherId` and `msgChainId` both supplied as
empty strings (a valid combination: both defined), the single fast-path query
carries no publisher/chain filter at all, contradicting the claim that each
query is filtered by `publisherId` and `msgChainId` when present. -/
theorem fetchRange_empty_string_ids_unfiltered :
    fetchRangePlan "s" 0 1 0 2 2147483647 (some "") (some "") ["b"] =
      [⟨"WHERE stream_id = ? AND partition = ? AND bucket_id IN ? AND ts >= ? AND ts <= ?",
        [Param.str "s", Param.num 0, Param.idList ["b"], Param.num 1, Param.num 2]⟩] := by
  rfl

/-- C3 (amended): for every valid range request with a non-empty candidate
bucket set, the full-sequence-domain fast path issues exactly one
`ts >= ? AND ts <= ?` query over the candidate bucket ids, and otherwise
exactly the three split queries are issued; each query is additionally
filtered by `publisherId` and `msgChainId` when the corresponding argument is
present and non-empty (JS truthiness). -/
theorem fetchRange_query_split (streamId : String)
    (partition fromTimestamp fromSequenceNo toTimestamp toSequenceNo : Int)
    (publisherId msgChainId : Option String) (bucketIds : List String)
    (_hvalid : publisherId.isSome = msgChainId.isSome) (hne : bucketIds ≠ []) :
    (fromSequenceNo = MIN_SEQUENCE_NUMBER_VALUE ∧ toSequenceNo = MAX_SEQUENCE_NUMBER_VALUE →
      fetchRangePlan streamId partition fromTimestamp fromSequenceNo toTimestamp toSequenceNo
          publisherId msgChainId bucketIds =
        [⟨"WHERE stream_id = ? AND partition = ? AND bucket_id IN ? AND ts >= ? AND ts <= ?" ++
            filterSuffix publisherId msgChainId,
          [Param.str streamId, Param.num partition, Param.idList bucketIds,
           Param.num fromTimestamp, Param.num toTimestamp] ++
            filterParams publisherId msgChainId⟩]) ∧
    (¬ (fromSequenceNo = MIN_SEQUENCE_NUMBER_VALUE ∧
        toSequenceNo = MAX_SEQUENCE_NUMBER_VALUE) →
      fetchRangePlan streamId partition fromTimestamp fromSequenceNo toTimestamp toSequenceNo
          publisherId msgChainId bucketIds =
        [⟨"WHERE stream_id = ? AND partition = ? AND bucket_id IN ? AND ts = ? AND sequence_no >= ?" ++
            filterSuffix publisherId msgChainId,
          [Param.str streamId, Param.num partition, Param.idList bucketIds,
           Param.num fromTimestamp, Param.num fromSequenceNo] ++
            filterParams publisherId msgChainId⟩,
         ⟨"WHERE stream_id = ? AND partition = ? AND bucket_id IN ? AND ts > ? AND ts < ?" ++
            filterSuffix publisherId msgChainId,
          [Param.str streamId, Param.num partition, Param.idList bucketIds,
           Param.num fromTimestamp, Param.num toTimestamp] ++
            filterParams publisherId msgChainId⟩,
         ⟨"WHERE stream_id = ? AND partition = ? AND bucket_id IN ? AND ts = ? AND sequence_no <= ?" ++
            filterSuffix publisherId msgChainId,
          [Param.str streamId, Param.num partition, Param.idList bucketIds,
           Param.num toTimestamp, Param.num toSequenceNo] ++
            filterParams publisherId msgChainId⟩]) := by
  constructor <;> intro h <;>
    simp [fetchRangePlan, hne, fetchRangeQueries, h, addFilters_eq]

/-- Witness for C3 (amended): concrete fast-path and general-path instances. -/
theorem fetchRange_query_split_witness :
    fetchRangePlan "s" 0 1 0 2 2147483647 (some "p") (some "c") ["b"] =
      [⟨"WHERE stream_id = ? AND partition = ? AND bucket_id IN ? AND ts >= ? AND ts <= ?" ++
          filterSuffix (some "p") (some "c"),
        [Param.str "s", Param.num 0, Param.idList ["b"], Param.num 1, Param.num 2] ++
          filterParams (some "p") (some "c")⟩] :=
  (fetchRange_query_split "s" 0 1 0 2 2147483647 (some "p") (some "c") ["b"] rfl
    (by decide)).1 ⟨rfl, rfl⟩

/-- C10 counterexample: `requestFrom` with an empty-string `publisherId` (a
supplied publisher) issues the three queries with no publisher filter at all,
contradicting the claim that it issues queries filtered by `publisherId`. -/
theorem requestFrom_empty_publisher_unfiltered :
    requestFromPlan "s" 0 5 3 (some "") ["b"] =
      [⟨"WHERE stream_id = ? AND partition = ? AND bucket_id IN ? AND ts = ? AND sequence_no >= ?",
        [Param.str "s", Param.num 0, Param.idList ["b"], Param.num 5, Param.num 3]⟩,
       ⟨"WHERE stream_id = ? AND partition = ? AND bucket_id IN ? AND ts > ? AND ts < ?",
        [Param.str "s", Param.num 0, Param.idList ["b"], Param.num 5,
         Param.num 8640000000000000]⟩,
       ⟨"WHERE stream_id = ? AND partition = ? AND bucket_id IN ? AND ts = ? AND sequence_no <= ?",
        [Param.str "s", Param.num 0, Param.idList ["b"], Param.num 8640000000000000,
         Param.num 2147483647]⟩] := by
  rfl

/-- C10 (amended): `requestFrom` performs no publisher/chain combination
validation: with any `publisherId` and no `msgChainId` it never raises the
invalid-argument error, while the equivalent `requestRange` call fails
synchronously; when the `publisherId` is non-empty, every issued query is the
corresponding unfiltered range query filtered by `publisher_id` only. -/
theorem requestFrom_skips_validation (streamId : String)
    (partition fromTimestamp fromSequenceNo toTimestamp toSequenceNo : Int)
    (pid : String) (bucketIds : List String) (hpid : pid ≠ "") :
    requestRange streamId partition fromTimestamp fromSequenceNo toTimestamp toSequenceNo
        (some pid) none bucketIds = Except.error invalidCombinationError ∧
    requestFromPlan streamId partition fromTimestamp fromSequenceNo (some pid) bucketIds =
      (fetchRangePlan streamId partition fromTimestamp fromSequenceNo
          MAX_TIMESTAMP_VALUE MAX_SEQUENCE_NUMBER_VALUE none none bucketIds).map
        (fun q => ⟨q.whereClause ++ " AND publisher_id = ?",
                   q.params ++ [Param.str pid]⟩) := by
  constructor
  · simp [requestRange]
  · by_cases hb : bucketIds = []
    · simp [requestFromPlan, fetchRangePlan, hb]
    · simp only [requestFromPlan, fetchRangePlan, hb, if_false]
      simp [fetchRangeQueries, addFilters_some_none pid hpid, addFilters_none_none]

/-- Witness for C10 (amended): concrete instance with publisher `"p"`. -/
theorem requestFrom_skips_validation_witness :
    requestRange "s" 0 5 3 8640000000000000 2147483647 (some "p") none ["b"] =
      Except.error invalidCombinationError ∧
    requestFromPlan "s" 0 5 3 (some "p") ["b"] =
      (fetchRangePlan "s" 0 5 3 MAX_TIMESTAMP_VALUE MAX_SEQUENCE_NUMBER_VALUE
          none none ["b"]).map
        (fun q => ⟨q.whereClause ++ " AND publisher_id = ?",
                   q.params ++ [Param.str "p"]⟩) :=
  requestFrom_skips_validation "s" 0 5 3 8640000000000000 2147483647 "p" ["b"] (by decide)

/-- The clamping of `limit` to `MAX_RESEND_LAST` at the top of `requestLast`. -/
def clampLimit (limit : Nat) : Nat :=
  if limit > MAX_RESEND_LAST then MAX_RESEND_LAST else limit

/-- The `GET_LAST_N_MESSAGES` statement of `requestLast`. -/
def GET_LAST_N_MESSAGES : String :=
  "SELECT payload FROM stream_data WHERE stream_id = ? AND partition = ? AND bucket_id IN ? ORDER BY ts DESC, sequence_no DESC LIMIT ?"

/-- The bucket-accumulation loop of `requestLast`: the `eachRow` scan over
`GET_BUCKETS` with `fetchSize: 1` yields one bucket row per page (newest
first, per the bucket table clustering order); each page handler pushes the
bucket id, adds the bucket's `COUNT(*)` result to the running total, and
calls `result.nextPage()` exactly when a next page exists and the total is
below both the (already clamped) limit and `MAX_RESEND_LAST`; otherwise it
issues the final query over the accumulated ids. -/
def bucketScan (count : String → Nat) (limit : Nat) :
    List String → Nat → List String → List String
  | [], _, bucketIds => bucketIds
  | b :: rest, total, bucketIds =>
    let accIds := bucketIds ++ [b]
    let total' := total + count b
    if rest ≠ [] ∧ total' < limit ∧ total' < MAX_RESEND_LAST then
      bucketScan count limit rest total' accIds
    else accIds

/-- `requestLast` at the level of its single final physical query: `none`
when no bucket row at all was returned (the result stream is ended empty),
otherwise the `GET_LAST_N_MESSAGES` query with params
`[streamId, partition, bucketIds, limit]` over exactly the accumulated bucket
ids, with the clamped limit. -/
def requestLastPlan (streamId : String) (partition : Int) (count : String → Nat)
    (limit : Nat) (bucketPages : List String) : Option QuerySpec :=
  let lim := clampLimit limit
  if bucketPages = [] then none
  else
    some ⟨GET_LAST_N_MESSAGES,
      [Param.str streamId, Param.num partition,
       Param.idList (bucketScan count lim bucketPages 0 []), Param.num lim]⟩

/-- Total stored record count of the first `k` scanned buckets. -/
def takenCount (count : String → Nat) (pages : List String) (k : Nat) : Nat :=
  ((pages.take k).map count).sum

theorem takenCount_cons_succ (count : String → Nat) (b : String) (rest : List String)
    (k : Nat) : takenCount count (b :: rest) (k + 1) = count b + takenCount count rest k := by
  simp [takenCount, List.take_succ_cons]

theorem takenCount_cons_one (count : String → Nat) (b : String) (rest : List String) :
    takenCount count (b :: rest) 1 = count b := by
  simp [takenCount]

/-- The scan of `bucketScan` returns the accumulated ids extended by the
shortest prefix of the remaining pages whose running total stops the loop. -/
theorem bucketScan_characterization (count : String → Nat) (limit : Nat) :
    ∀ (pages : List String) (total : Nat) (acc : List String), pages ≠ [] →
      ∃ k, 1 ≤ k ∧ k ≤ pages.length ∧
        bucketScan count limit pages total acc = acc ++ pages.take k ∧
        (k = pages.length ∨ limit ≤ total + takenCount count pages k ∨
          MAX_RESEND_LAST ≤ total + takenCount count pages k) ∧
        (∀ j, 1 ≤ j → j < k →
          total + takenCount count pages j < limit ∧
          total + takenCount count pages j < MAX_RESEND_LAST) := by
  intro pages
  induction pages with
  | nil => intro total acc h; exact absurd rfl h
  | cons b rest ih =>
    intro total acc _
    by_cases hcont : rest ≠ [] ∧ total + count b < limit ∧ total + count b < MAX_RESEND_LAST
    · obtain ⟨k', hk1, hk2, hk3, hk4, hk5⟩ := ih (total + count b) (acc ++ [b]) hcont.1
      refine ⟨k' + 1, by omega, by simp; omega, ?_, ?_, ?_⟩
      · rw [bucketScan, if_pos hcont, hk3, List.take_succ_cons, List.append_assoc]
        rfl
      · rcases hk4 with h | h | h
        · left; simp [h]
        · right; left; rw [takenCount_cons_succ]; omega
        · right; right; rw [takenCount_cons_succ]; omega
      · intro j hj1 hj2
        match j, hj1 with
        | 1, _ =>
          rw [takenCount_cons_one]
          exact ⟨hcont.2.1, hcont.2.2⟩
        | j'' + 2, _ =>
          have := hk5 (j'' + 1) (by omega) (by omega)
          rw [takenCount_cons_succ]
          omega
    · refine ⟨1, le_refl 1, by simp, ?_, ?_, by omega⟩
      · rw [bucketScan, if_neg hcont]
        simp
      · rw [takenCount_cons_one]
        by_cases hrest : rest = []
        · left; simp [hrest]
        · right
          push_neg at hcont
          have := hcont hrest
          omega

/-- C4: `requestLast` accumulates candidate buckets one page at a time: the
final query is issued over exactly the shortest prefix of the bucket pages at
which the running record-count total reaches the clamped limit or the 10000
ceiling, or the pages are exhausted; that single final query carries the
accumulated ids and the clamped limit. In particular, with two buckets of 2
records each and limit 3, both bucket ids are in the final fetch. -/
theorem requestLast_bucket_accumulation (streamId : String) (partition : Int)
    (count : String → Nat) (limit : Nat) (bucketPages : List String)
    (hne : bucketPages ≠ []) :
    (∃ k, 1 ≤ k ∧ k ≤ bucketPages.length ∧
      requestLastPlan streamId partition count limit bucketPages =
        some ⟨GET_LAST_N_MESSAGES,
          [Param.str streamId, Param.num partition,
           Param.idList (bucketPages.take k), Param.num (clampLimit limit)]⟩ ∧
      (k = bucketPages.length ∨
        clampLimit limit ≤ takenCount count bucketPages k ∨
        MAX_RESEND_LAST ≤ takenCount count bucketPages k) ∧
      (∀ j, 1 ≤ j → j < k →
        takenCount count bucketPages j < clampLimit limit ∧
        takenCount count bucketPages j < MAX_RESEND_LAST)) ∧
    bucketScan (fun _ => 2) (clampLimit 3) ["B", "A"] 0 [] = ["B", "A"] := by
  constructor
  · obtain ⟨k, h1, h2, h3, h4, h5⟩ :=
      bucketScan_characterization count (clampLimit limit) bucketPages 0 [] hne
    refine ⟨k, h1, h2, ?_, by simpa using h4, by simpa using h5⟩
    simp only [requestLastPlan, hne, if_false]
    rw [h3]
    simp
  · rfl

/-- Witness for C4: the two-bucket scenario with limit 3. -/
theorem requestLast_bucket_accumulation_witness :
    (∃ k, 1 ≤ k ∧ k ≤ (["B", "A"] : List String).length ∧
      requestLastPlan "s1" 0 (fun _ => 2) 3 ["B", "A"] =
        some ⟨GET_LAST_N_MESSAGES,
          [Param.str "s1", Param.num 0,
           Param.idList ((["B", "A"] : List String).take k), Param.num (clampLimit 3)]⟩ ∧
      (k = (["B", "A"] : List String).length ∨
        clampLimit 3 ≤ takenCount (fun _ => 2) ["B", "A"] k ∨
        MAX_RESEND_LAST ≤ takenCount (fun _ => 2) ["B", "A"] k) ∧
      (∀ j, 1 ≤ j → j < k →
        takenCount (fun _ => 2) ["B", "A"] j < clampLimit 3 ∧
        takenCount (fun _ => 2) ["B", "A"] j < MAX_RESEND_LAST)) ∧
    bucketScan (fun _ => 2) (clampLimit 3) ["B", "A"] 0 [] = ["B", "A"] :=
  requestLast_bucket_accumulation "s1" 0 (fun _ => 2) 3 ["B", "A"] (by decide)

/-- A deserialized `StreamMessage`, as far as this embedding needs it. -/
structure StoredMessage where
  timestamp : Int
  sequenceNumber : Int
  publisherId : String
  msgChainId : String
  content : String
deriving DecidableEq, Repr

/-- A physical row of the `stream_data` table. The `payload` column is
nullable; a non-null payload deserializes to the stored message (the
embedding keeps the deserialized form). -/
structure StoredRow where
  bucket_id : String
  ts : Int
  sequence_no : Int
  payload : Option StoredMessage
deriving DecidableEq, Repr

/-- The `ORDER BY ts DESC, sequence_no DESC` comparator of
`GET_LAST_N_MESSAGES`: `a` precedes `b` in the result set iff `a` is at least
as new as `b`. -/
def rowNewestFirst (a b : StoredRow) : Bool :=
  decide (b.ts < a.ts ∨ (b.ts = a.ts ∧ b.sequence_no ≤ a.sequence_no))

/-- Execution of the final `GET_LAST_N_MESSAGES` query against the
`stream_data` rows of the stream partition: the rows of the given buckets,
ordered newest first, limited to `limit` rows. -/
def executeLastN (db : List StoredRow) (bucketIds : List String) (limit : Nat) :
    List StoredRow :=
  ((db.filter (fun r => bucketIds.contains r.bucket_id)).mergeSort rowNewestFirst).take limit

/-- `parseRow`: a row with a null payload is logged and yields `null`
(skipped); otherwise the payload is deserialized and a `read` notification is
emitted for it. -/
def parseRow (r : StoredRow) : Option StoredMessage := r.payload

/-- Outcome of writing a list of rows through the `Transform` built by
`createResultStream`: the messages pushed downstream, the `read`
notifications emitted, and whether the transform ever reported an error. -/
structure TransformOutcome where
  pushed : List StoredMessage
  readEvents : List StoredMessage
  errored : Bool
deriving DecidableEq, Repr

/-- One `transform` callback invocation of `createResultStream`: a non-null
`parseRow` result is pushed (and was emitted as a `read` event); a null
result is skipped; `done` is always invoked without an error. -/
def transformStep (acc : TransformOutcome) (r : StoredRow) : TransformOutcome :=
  match parseRow r with
  | some m => { acc with pushed := acc.pushed ++ [m], readEvents := acc.readEvents ++ [m] }
  | none => acc

/-- The result stream's behaviour on a list of written rows. -/
def resultStreamProcess (rows : List StoredRow) : TransformOutcome :=
  rows.foldl transformStep ⟨[], [], false⟩

/-- The messages `requestLast` emits: the final query's result rows are
reversed (`resultSet.rows.reverse()`) and each written to the result
stream. -/
def requestLastEmitted (db : List StoredRow) (bucketIds : List String) (limit : Nat) :
    List StoredMessage :=
  (resultStreamProcess ((executeLastN db bucketIds (clampLimit limit)).reverse)).pushed

/-- Ascending `(timestamp, sequenceNumber)` order on messages. -/
def msgAscLe (a b : StoredMessage) : Prop :=
  a.timestamp < b.timestamp ∨
    (a.timestamp = b.timestamp ∧ a.sequenceNumber ≤ b.sequenceNumber)

/-- Well-formedness of `stream_data` rows: a stored payload's timestamp and
sequence number agree with the row's clustering columns, which is how the
write path stores messages. -/
def rowKeyed (db : List StoredRow) : Prop :=
  ∀ r ∈ db, ∀ m ∈ r.payload,
    m.timestamp = r.ts ∧ m.sequenceNumber = r.sequence_no

instance (db : List StoredRow) : Decidable (rowKeyed db) := by
  unfold rowKeyed
  infer_instance

theorem resultStream_foldl (rows : List StoredRow) :
    ∀ acc : TransformOutcome,
      rows.foldl transformStep acc =
        ⟨acc.pushed ++ rows.filterMap parseRow,
         acc.readEvents ++ rows.filterMap parseRow, acc.errored⟩ := by
  induction rows with
  | nil => intro acc; simp
  | cons r rest ih =>
    intro acc
    cases hp : parseRow r with
    | none => simp [List.foldl_cons, transformStep, hp, ih, List.filterMap_cons]
    | some m => simp [List.foldl_cons, transformStep, hp, ih, List.filterMap_cons]

theorem resultStreamProcess_eq (rows : List StoredRow) :
    resultStreamProcess rows =
      ⟨rows.filterMap parseRow, rows.filterMap parseRow, false⟩ := by
  simpa using resultStream_foldl rows ⟨[], [], false⟩

theorem rowNewestFirst_trans (a b c : StoredRow) :
    rowNewestFirst a b = true → rowNewestFirst b c = true →
      rowNewestFirst a c = true := by
  simp only [rowNewestFirst, decide_eq_true_iff]
  omega

theorem rowNewestFirst_total (a b : StoredRow) :
    (rowNewestFirst a b || rowNewestFirst b a) = true := by
  simp only [rowNewestFirst, Bool.or_eq_true, decide_eq_true_iff]
  omega

theorem executeLastN_sorted (db : List StoredRow) (bucketIds : List String)
    (limit : Nat) :
    (executeLastN db bucketIds limit).Pairwise
      (fun a b => rowNewestFirst a b = true) :=
  List.Pairwise.sublist (List.take_sublist _ _)
    (List.sorted_mergeSort rowNewestFirst_trans rowNewestFirst_total _)

theorem executeLastN_mem (db : List StoredRow) (bucketIds : List String)
    (limit : Nat) : ∀ a ∈ executeLastN db bucketIds limit, a ∈ db := by
  intro a ha
  have h1 := (List.take_sublist _ _).subset ha
  have h2 := List.mem_mergeSort.mp h1
  exact (List.mem_filter.mp h2).1

theorem pairwise_filterMap_of_mem {α β : Type} {R : α → α → Prop}
    {S : β → β → Prop} (f : α → Option β) :
    ∀ l : List α,
      (∀ a ∈ l, ∀ b ∈ l, R a b → ∀ x, f a = some x → ∀ y, f b = some y → S x y) →
      l.Pairwise R → (l.filterMap f).Pairwise S := by
  intro l
  induction l with
  | nil => intro _ _; simp
  | cons a l ih =>
    intro hmem hp
    obtain ⟨ha, hp'⟩ := List.pairwise_cons.mp hp
    rw [List.filterMap_cons]
    cases hfa : f a with
    | none =>
      exact ih (fun x hx y hy => hmem x (List.mem_cons_of_mem a hx)
        y (List.mem_cons_of_mem a hy)) hp'
    | some x =>
      rw [List.pairwise_cons]
      refine ⟨?_, ih (fun u hu v hv => hmem u (List.mem_cons_of_mem a hu)
        v (List.mem_cons_of_mem a hv)) hp'⟩
      intro y hy
      obtain ⟨b, hb, hfb⟩ := List.mem_filterMap.mp hy
      exact hmem a (List.mem_cons_self a l) b (List.mem_cons_of_mem a hb)
        (ha b hb) x hfa y hfb

theorem clampLimit_eq_min (limit : Nat) : clampLimit limit = min limit MAX_RESEND_LAST := by
  rw [clampLimit]
  split <;> omega

/-- C1: `requestLast` emits at most `min limit MAX_RESEND_LAST` messages, in
ascending `(timestamp, sequenceNumber)` order, and the final physical query's
rows come back newest first with the clamped limit before being reversed. -/
theorem requestLast_clamped_and_ascending (db : List StoredRow)
    (bucketIds : List String) (limit : Nat) (hwf : rowKeyed db) :
    (requestLastEmitted db bucketIds limit).length ≤ min limit MAX_RESEND_LAST ∧
    List.Pairwise msgAscLe (requestLastEmitted db bucketIds limit) ∧
    List.Pairwise (fun a b => rowNewestFirst a b = true)
      (executeLastN db bucketIds (clampLimit limit)) := by
  have hpush : requestLastEmitted db bucketIds limit =
      ((executeLastN db bucketIds (clampLimit limit)).reverse).filterMap parseRow := by
    rw [requestLastEmitted, resultStreamProcess_eq]
  refine ⟨?_, ?_, executeLastN_sorted db bucketIds (clampLimit limit)⟩
  · rw [hpush]
    calc (((executeLastN db bucketIds (clampLimit limit)).reverse).filterMap parseRow).length
        ≤ ((executeLastN db bucketIds (clampLimit limit)).reverse).length :=
          List.length_filterMap_le _ _
      _ = (executeLastN db bucketIds (clampLimit limit)).length :=
          List.length_reverse _
      _ ≤ clampLimit limit := by
          rw [executeLastN]
          simp [List.length_take]
      _ = min limit MAX_RESEND_LAST := clampLimit_eq_min limit
  · rw [hpush]
    apply pairwise_filterMap_of_mem
      (R := fun a b : StoredRow => rowNewestFirst b a = true) parseRow
    · intro a ha b hb hR x hx y hy
      have hadb : a ∈ db :=
        executeLastN_mem db bucketIds (clampLimit limit) a (List.mem_reverse.mp ha)
      have hbdb : b ∈ db :=
        executeLastN_mem db bucketIds (clampLimit limit) b (List.mem_reverse.mp hb)
      have hx' := hwf a hadb x (by simpa [parseRow] using hx)
      have hy' := hwf b hbdb y (by simpa [parseRow] using hy)
      rw [rowNewestFirst, decide_eq_true_iff] at hR
      rw [msgAscLe]
      omega
    · rw [List.pairwise_reverse]
      exact executeLastN_sorted db bucketIds (clampLimit limit)

/-- Witness for C1: a concrete three-row table over two buckets. -/
theorem requestLast_clamped_and_ascending_witness :
    (requestLastEmitted
        [⟨"b1", 100, 0, some ⟨100, 0, "p", "c", "x"⟩⟩,
         ⟨"b1", 101, 0, some ⟨101, 0, "p", "c", "y"⟩⟩,
         ⟨"b2", 99, 1, none⟩] ["b1", "b2"] 2).length ≤ min 2 MAX_RESEND_LAST ∧
    List.Pairwise msgAscLe
      (requestLastEmitted
        [⟨"b1", 100, 0, some ⟨100, 0, "p", "c", "x"⟩⟩,
         ⟨"b1", 101, 0, some ⟨101, 0, "p", "c", "y"⟩⟩,
         ⟨"b2", 99, 1, none⟩] ["b1", "b2"] 2) ∧
    List.Pairwise (fun a b => rowNewestFirst a b = true)
      (executeLastN
        [⟨"b1", 100, 0, some ⟨100, 0, "p", "c", "x"⟩⟩,
         ⟨"b1", 101, 0, some ⟨101, 0, "p", "c", "y"⟩⟩,
         ⟨"b2", 99, 1, none⟩] ["b1", "b2"] (clampLimit 2)) :=
  requestLast_clamped_and_ascending
    [⟨"b1", 100, 0, some ⟨100, 0, "p", "c", "x"⟩⟩,
     ⟨"b1", 101, 0, some ⟨101, 0, "p", "c", "y"⟩⟩,
     ⟨"b2", 99, 1, none⟩] ["b1", "b2"] 2 (by decide)

/-- C8: every row written to the result stream with a null payload is skipped
(never pushed, never emitted as a `read` notification) and never errors the
stream; all other rows are deserialized and forwarded in order, each with its
`read` notification. -/
theorem resultStream_skips_null_payloads (rows : List StoredRow) :
    resultStreamProcess rows =
      ⟨rows.filterMap (fun r => r.payload), rows.filterMap (fun r => r.payload), false⟩ :=
  resultStreamProcess_eq rows

/-- A row of the `bucket` table. -/
structure BucketRow where
  id : String
  date_create : Int
  records : Int
  size : Int
deriving DecidableEq, Repr

/-- Modelled from the spec for the backend aggregate only: the spec says an
aggregate counter can "overflo[w] its representable range" and the source
comments "Cassandra's integer has overflown", so the `SUM` of a 32-bit
integer column wraps into `[-2^31, 2^31)`. The `bucket` table schema itself
is not among the sources. -/
def wrap32 (n : Int) : Int := (n + 2 ^ 31) % 2 ^ 32 - 2 ^ 31

/-- Result rows of a `SELECT SUM(col) AS count ...` statement: always exactly
one row, holding the (possibly overflowed) aggregate. -/
def sumQueryRows (vals : List Int) : List Int := [wrap32 vals.sum]

/-- `getNumberOfMessagesInStream`: `SELECT SUM(records) as count`; `0` when
the result set does not hold exactly one row; otherwise the reported
aggregate, returned as-is with no overflow fallback. -/
def getNumberOfMessagesInStream (buckets : List BucketRow) : Int :=
  match sumQueryRows (buckets.map (fun b => b.records)) with
  | [count] => count
  | _ => 0

/-- `getTotalBytesInStream`: `SELECT SUM(size) as count`; `0` when the result
set does not hold exactly one row; when the aggregate is negative (the
integer has overflown), reset `count` to `0` and re-accumulate the `size`
column row by row. -/
def getTotalBytesInStream (buckets : List BucketRow) : Int :=
  match sumQueryRows (buckets.map (fun b => b.size)) with
  | [count] =>
    if count < 0 then (buckets.map (fun b => b.size)).foldl (fun x1 x2 => x1 + x2) 0
    else count
  | _ => 0

/-- Comparator for `ORDER BY date_create ASC` on the `bucket` table. -/
def bucketDateAsc (a b : BucketRow) : Bool := decide (a.date_create ≤ b.date_create)

/-- Comparator for `ORDER BY date_create DESC` on the `bucket` table. -/
def bucketDateDesc (a b : BucketRow) : Bool := decide (b.date_create ≤ a.date_create)

/-- `getFirstMessageTimestampInStream`: the oldest bucket by `date_create`
(`LIMIT 1`), then the smallest `ts` in that bucket (`ORDER BY ts ASC LIMIT
1`); `0` when either result set is empty; `new Date(ts).getTime()` is the
identity on an integer timestamp. `rowsOfBucket` gives the `ts` column of the
`stream_data` rows of a bucket. -/
def getFirstMessageTimestampInStream (buckets : List BucketRow)
    (rowsOfBucket : String → List Int) : Int :=
  match (buckets.mergeSort bucketDateAsc).take 1 with
  | [] => 0
  | b :: _ =>
    match ((rowsOfBucket b.id).mergeSort (fun x y => decide (x ≤ y))).take 1 with
    | [] => 0
    | ts :: _ => ts

/-- `getLastMessageTimestampInStream`: the newest bucket by `date_create`,
then the largest `ts` in that bucket (`ORDER BY ts DESC LIMIT 1`); `0` when
either result set is empty. -/
def getLastMessageTimestampInStream (buckets : List BucketRow)
    (rowsOfBucket : String → List Int) : Int :=
  match (buckets.mergeSort bucketDateDesc).take 1 with
  | [] => 0
  | b :: _ =>
    match ((rowsOfBucket b.id).mergeSort (fun x y => decide (y ≤ x))).take 1 with
    | [] => 0
    | ts :: _ => ts

/-- C5 counterexample: `getNumberOfMessagesInStream` does not fall back on an
overflowed (negative) aggregate: two buckets holding `2147483647` and `1`
records yield `-2147483648`, a negative value instead of the correct total
`2147483648`. -/
theorem getNumberOfMessages_returns_overflowed_aggregate :
    getNumberOfMessagesInStream [⟨"a", 0, 2147483647, 0⟩, ⟨"b", 1, 1, 0⟩] =
        -2147483648 ∧
    getNumberOfMessagesInStream [⟨"a", 0, 2147483647, 0⟩, ⟨"b", 1, 1, 0⟩] < 0 ∧
    getNumberOfMessagesInStream [⟨"a", 0, 2147483647, 0⟩, ⟨"b", 1, 1, 0⟩] ≠
      2147483647 + 1 := by
  refine ⟨?_, ?_, ?_⟩ <;> decide

/-- C5 (amended): every scalar summary query returns `0` when no buckets or
rows exist; `getTotalBytesInStream` falls back to row-by-row summation and
returns the exact total whenever its aggregate is negative;
`getNumberOfMessagesInStream` has no overflow fallback and returns the
reported aggregate as-is. -/
theorem summary_queries_zero_default_and_overflow (buckets : List BucketRow)
    (rowsOfBucket : String → List Int) :
    getFirstMessageTimestampInStream [] rowsOfBucket = 0 ∧
    getLastMessageTimestampInStream [] rowsOfBucket = 0 ∧
    ((∀ b, rowsOfBucket b = []) →
      getFirstMessageTimestampInStream buckets rowsOfBucket = 0 ∧
      getLastMessageTimestampInStream buckets rowsOfBucket = 0) ∧
    getNumberOfMessagesInStream [] = 0 ∧
    getTotalBytesInStream [] = 0 ∧
    (wrap32 ((buckets.map (fun b => b.size)).sum) < 0 →
      getTotalBytesInStream buckets = (buckets.map (fun b => b.size)).sum) ∧
    getNumberOfMessagesInStream buckets =
      wrap32 ((buckets.map (fun b => b.records)).sum) := by
  refine ⟨by simp [getFirstMessageTimestampInStream],
    by simp [getLastMessageTimestampInStream], ?_, by decide, by decide, ?_, rfl⟩
  · intro hrows
    constructor
    · rw [getFirstMessageTimestampInStream]
      cases hm : (buckets.mergeSort bucketDateAsc).take 1 with
      | nil => rfl
      | cons b rest => simp [hrows b.id]
    · rw [getLastMessageTimestampInStream]
      cases hm : (buckets.mergeSort bucketDateDesc).take 1 with
      | nil => rfl
      | cons b rest => simp [hrows b.id]
  · intro hneg
    rw [getTotalBytesInStream]
    simp only [sumQueryRows]
    rw [if_pos hneg, ← List.sum_eq_foldl]

/-- Witness for C5 (amended): a concrete overflowing byte total and the empty
stream defaults. -/
theorem summary_queries_zero_default_and_overflow_witness :
    getTotalBytesInStream [⟨"a", 0, 1, 2147483647⟩, ⟨"b", 1, 1, 1⟩] = 2147483648 ∧
    getFirstMessageTimestampInStream [⟨"a", 0, 1, 1⟩] (fun _ => []) = 0 ∧
    getNumberOfMessagesInStream [] = 0 := by
  refine ⟨?_, ?_, ?_⟩
  · have h := (summary_queries_zero_default_and_overflow
      [⟨"a", 0, 1, 2147483647⟩, ⟨"b", 1, 1, 1⟩] (fun _ => [])).2.2.2.2.2.1 (by decide)
    rw [h]
    decide
  · exact ((summary_queries_zero_default_and_overflow
      [⟨"a", 0, 1, 1⟩] (fun _ => [])).2.2.1 (fun _ => rfl)).1
  · exact (summary_queries_zero_default_and_overflow [] (fun _ => [])).2.2.2.1

/-- Effects a single `store(streamMessage)` attempt performs. -/
inductive StoreEffect where
  | incrementBucket : String → Nat → StoreEffect
  | batchStore : String → StoreEffect
  | schedulePending : String → Nat → StoreEffect
deriving DecidableEq, Repr

/-- Resolution of the caller's promise once the batch manager reports back. -/
inductive StoreOutcome where
  | resolvedTrue : StoreOutcome
  | rejected : String → StoreOutcome
deriving DecidableEq, Repr

/-- The constructor's option merging `{...defaultOptions, ...opts}` with
`defaultOptions.retriesIntervalMilliseconds = 500`. -/
def effectiveRetriesInterval (optsInterval : Option Nat) : Nat :=
  optsInterval.getD 500

/-- One `store` attempt: if the bucket manager resolves a bucket id, the
bucket is incremented by the message's serialized byte length and the message
is handed to the batch manager (pending map untouched); otherwise a fresh
uuid is generated and a retry timer over `retriesIntervalMilliseconds` is
stored in the pending map. -/
def storeStep (resolvedBucket : Option String) (serializedBytes : Nat)
    (retriesInterval : Nat) (freshUuid : String)
    (pendingStores : List (String × Nat)) :
    List StoreEffect × List (String × Nat) :=
  match resolvedBucket with
  | some bucketId =>
    ([StoreEffect.incrementBucket bucketId serializedBytes,
      StoreEffect.batchStore bucketId], pendingStores)
  | none =>
    ([StoreEffect.schedulePending freshUuid retriesInterval],
     pendingStores ++ [(freshUuid, retriesInterval)])

/-- The batch manager's completion callback: on success the `write` event is
emitted and the promise resolves `true`; on failure the promise is rejected
with the batcher's error (the `Bool` records whether `write` was emitted). -/
def storeCallback (err : Option String) : StoreOutcome × Bool :=
  match err with
  | some e => (StoreOutcome.rejected e, false)
  | none => (StoreOutcome.resolvedTrue, true)

/-- The parked-write timer body: delete the uuid from the pending map, then
re-attempt `store` from scratch. -/
def firePendingRetry (uuid : String) (pendingStores : List (String × Nat)) :
    List (String × Nat) :=
  pendingStores.filter (fun kv => !(kv.1 == uuid))

/-- C6: with a resolved bucket, `store` increments the bucket's counters by
the serialized byte length and hands the message to the batch manager,
resolving `true` (with a `write` event) on batcher success and rejecting with
the batcher's error on failure, without touching the pending map; with no
resolved bucket, it parks the store in the addressable pending map under a
fresh uuid with the configured retry interval (default 500 ms), and the timer
body removes that entry before re-attempting `store` from scratch. -/
theorem store_delivers_or_parks (serializedBytes retriesInterval : Nat)
    (bucketId freshUuid : String) (pendingStores : List (String × Nat))
    (hfresh : freshUuid ∉ pendingStores.map Prod.fst) :
    storeStep (some bucketId) serializedBytes retriesInterval freshUuid pendingStores =
      ([StoreEffect.incrementBucket bucketId serializedBytes,
        StoreEffect.batchStore bucketId], pendingStores) ∧
    storeCallback none = (StoreOutcome.resolvedTrue, true) ∧
    (∀ e, storeCallback (some e) = (StoreOutcome.rejected e, false)) ∧
    storeStep none serializedBytes retriesInterval freshUuid pendingStores =
      ([StoreEffect.schedulePending freshUuid retriesInterval],
       pendingStores ++ [(freshUuid, retriesInterval)]) ∧
    effectiveRetriesInterval none = 500 ∧
    firePendingRetry freshUuid
        (storeStep none serializedBytes retriesInterval freshUuid pendingStores).2 =
      pendingStores := by
  refine ⟨rfl, rfl, fun e => rfl, rfl, rfl, ?_⟩
  rw [storeStep, firePendingRetry, List.filter_append]
  have h1 : pendingStores.filter (fun kv => !(kv.1 == freshUuid)) = pendingStores := by
    rw [List.filter_eq_self]
    intro kv hkv
    simp only [Bool.not_eq_eq_eq_not, Bool.not_true, beq_eq_false_iff_ne, ne_eq]
    intro hEq
    exact hfresh (hEq ▸ List.mem_map_of_mem Prod.fst hkv)
  rw [h1]
  simp

/-- Witness for C6: a concrete pending map not containing the fresh uuid. -/
theorem store_delivers_or_parks_witness :
    storeStep (some "bucket1") 42 500 "u2" [("u1", 500)] =
      ([StoreEffect.incrementBucket "bucket1" 42, StoreEffect.batchStore "bucket1"],
       [("u1", 500)]) ∧
    storeCallback none = (StoreOutcome.resolvedTrue, true) ∧
    (∀ e, storeCallback (some e) = (StoreOutcome.rejected e, false)) ∧
    storeStep none 42 500 "u2" [("u1", 500)] =
      ([StoreEffect.schedulePending "u2" 500], [("u1", 500), ("u2", 500)]) ∧
    effectiveRetriesInterval none = 500 ∧
    firePendingRetry "u2" (storeStep none 42 500 "u2" [("u1", 500)]).2 = [("u1", 500)] :=
  store_delivers_or_parks 42 500 "bucket1" "u2" [("u1", 500)] (by decide)

/-- An action `close()` performs, in program order. -/
inductive CloseAction where
  | clearPendingTimer : String → CloseAction
  | stopBucketManager : CloseAction
  | stopBatchManager : CloseAction
  | shutdownCassandra : CloseAction
deriving DecidableEq, Repr

/-- One iteration of the cancellation loop of `close`: clear the key's
timeout and delete the key from the pending map. -/
def cancelStep (acc : List CloseAction × List (String × Nat)) (key : String) :
    List CloseAction × List (String × Nat) :=
  (acc.1 ++ [CloseAction.clearPendingTimer key],
   acc.2.filter (fun kv => !(kv.1 == key)))

/-- The pending-store cancellation loop of `close`: snapshot the keys, then
clear and delete each one. -/
def cancelPendingStores (pending : List (String × Nat)) :
    List CloseAction × List (String × Nat) :=
  (pending.map Prod.fst).foldl cancelStep ([], pending)

/-- `close()`: cancel every pending store timer, then stop the bucket
manager, stop the batch manager, and shut down the Cassandra client, in that
order. -/
def close (pending : List (String × Nat)) :
    List CloseAction × List (String × Nat) :=
  let c := cancelPendingStores pending
  (c.1 ++ [CloseAction.stopBucketManager, CloseAction.stopBatchManager,
           CloseAction.shutdownCassandra], c.2)

theorem cancelStep_foldl (keys : List String) :
    ∀ (acts : List CloseAction) (m : List (String × Nat)),
      keys.foldl cancelStep (acts, m) =
        (acts ++ keys.map CloseAction.clearPendingTimer,
         m.filter (fun kv => !(keys.contains kv.1))) := by
  induction keys with
  | nil => intro acts m; simp
  | cons k ks ih =>
    intro acts m
    rw [List.foldl_cons, cancelStep, ih]
    refine congrArg₂ Prod.mk (by simp) ?_
    rw [List.filter_filter]
    apply List.filter_congr
    intro kv _
    rw [List.contains_cons]
    cases hk : kv.1 == k <;> cases hks : ks.contains kv.1 <;> rfl

/-- C9: `close` clears every pending parked-write timer (one `clearTimeout`
per pending entry, in map order), leaves the pending map empty, and only then
stops the bucket manager, stops the batch manager, and shuts down the
backend connection, in that order. -/
theorem close_cancels_pending_then_stops (pending : List (String × Nat)) :
    (close pending).1 =
      pending.map (fun kv => CloseAction.clearPendingTimer kv.1) ++
        [CloseAction.stopBucketManager, CloseAction.stopBatchManager,
         CloseAction.shutdownCassandra] ∧
    (close pending).2 = [] := by
  have hfold := cancelStep_foldl (pending.map Prod.fst) [] pending
  constructor
  · rw [close]
    simp only [cancelPendingStores, hfold]
    simp [List.map_map, Function.comp]
  · rw [close]
    simp only [cancelPendingStores, hfold]
    rw [List.filter_eq_nil_iff]
    intro kv hkv
    simp [List.mem_map_of_mem Prod.fst hkv]

end LogStore
